import Mathlib

/-!
Shallow embedding of the `connpool` Go package (a generic connection pool).

Conventions of the embedding:
* Go `int` / `int64` / `time.Duration` become `Int`; durations are in
  nanoseconds, with `second = 1000000000` mirroring Go's `time.Second`.
* The pool's mutable fields guarded by `c.mx` become a `ConnectPool`
  structure; each critical section of the source becomes a function from
  state to state.
* Side effects on collaborators are made explicit: every invocation of the
  user-supplied `ConnClose` callback is recorded in a `closedConns` (or
  paired) list, and every send into a waiter's delivery channel is recorded
  by filling that waiter's `buf` field (the waiters' channels are buffered
  with capacity 1).
* The Go `activeLock` channel (the admission gate) is modelled by the
  number of free tokens it currently holds.
-/

namespace Connpool

/-- Go `time.Second` in nanoseconds. -/
def second : Int := 1000000000

/-- `Conn`: wrapper around a user value `v` with creation and put timestamps
(in unix seconds), from `conn.go`. -/
structure Conn where
  v : Nat
  createTime : Int
  putTimeSec : Int
deriving Repr, DecidableEq

/-- The package's error values. -/
inductive Err where
  | maxActiveLimit
  | maxWaitConnLimit
  | poolClosed
  | waitGetConnTimeout
  | noCreator
  | noConnClose
  | noValidConnected
deriving Repr, DecidableEq

/-- `Config` from the configuration file. Function-typed collaborator fields
(`Creator`, `ConnClose`, `ValidConnected`) are modelled by the validator's
verdict function plus three booleans recording whether each callback is set
(non-nil). -/
structure Config where
  WaitFirstConn : Bool
  MinIdle : Int
  MaxIdle : Int
  MaxActive : Int
  BatchIncrement : Int
  BatchShrink : Int
  IdleTimeout : Int
  WaitTimeout : Int
  MaxWaitConnCount : Int
  ConnectTimeout : Int
  MaxConnLifetime : Int
  CheckIdleInterval : Int
  ValidConnected : Conn → Bool
  hasCreator : Bool
  hasConnClose : Bool
  hasValidConnected : Bool

def defMinIdle : Int := 2

def defMaxIdle : Int := defMinIdle * 2

def defMaxActive : Int := 10

def defBatchIncrement : Int := defMinIdle * 2

def defBatchShrink : Int := defBatchIncrement

def defIdleTimeout : Int := 0

def defWaitTimeout : Int := second * 5

def defMaxWaitConnCount : Int := 0

def defConnectTimeout : Int := second * 5

def defMaxConnLifetime : Int := 0

def defCheckIdleInterval : Int := second * 5

/-- Step 1 of `Config.Check`: `if conf.MinIdle < 1 { conf.MinIdle = defMinIdle }`. -/
def normMinIdle (c : Config) : Config :=
  if c.MinIdle < 1 then { c with MinIdle := defMinIdle } else c

/-- Step 2 of `Config.Check`: `if conf.MaxIdle < 1 { conf.MaxIdle = defMaxIdle }`. -/
def normMaxIdleDefault (c : Config) : Config :=
  if c.MaxIdle < 1 then { c with MaxIdle := defMaxIdle } else c

/-- Step 3 of `Config.Check`: `if conf.MaxIdle < conf.MinIdle { conf.MaxIdle = conf.MinIdle * 2 }`. -/
def normMaxIdleFloor (c : Config) : Config :=
  if c.MaxIdle < c.MinIdle then { c with MaxIdle := c.MinIdle * 2 } else c

/-- Step 4 of `Config.Check`: `if conf.BatchIncrement < 1 { conf.BatchIncrement = conf.MinIdle }`. -/
def normBatchIncrementDefault (c : Config) : Config :=
  if c.BatchIncrement < 1 then { c with BatchIncrement := c.MinIdle } else c

/-- Step 5 of `Config.Check`: `if conf.BatchIncrement > conf.MaxIdle { conf.BatchIncrement = conf.MaxIdle }`. -/
def normBatchIncrementCap (c : Config) : Config :=
  if c.BatchIncrement > c.MaxIdle then { c with BatchIncrement := c.MaxIdle } else c

/-- Step 6 of `Config.Check`: `if conf.BatchShrink < 1 { conf.BatchShrink = conf.BatchIncrement }`. -/
def normBatchShrink (c : Config) : Config :=
  if c.BatchShrink < 1 then { c with BatchShrink := c.BatchIncrement } else c

/-- Step 7 of `Config.Check`: `if conf.IdleTimeout < 1 { conf.IdleTimeout = 0 }`. -/
def normIdleTimeout (c : Config) : Config :=
  if c.IdleTimeout < 1 then { c with IdleTimeout := 0 } else c

/-- Step 8 of `Config.Check`: `if conf.WaitTimeout < 1 { conf.WaitTimeout = defWaitTimeout }`. -/
def normWaitTimeout (c : Config) : Config :=
  if c.WaitTimeout < 1 then { c with WaitTimeout := defWaitTimeout } else c

/-- Step 9 of `Config.Check`: `if conf.MaxWaitConnCount < 1 { conf.MaxWaitConnCount = 0 }`. -/
def normMaxWaitConnCount (c : Config) : Config :=
  if c.MaxWaitConnCount < 1 then { c with MaxWaitConnCount := 0 } else c

/-- Step 10 of `Config.Check`: `if conf.ConnectTimeout < 1 { conf.ConnectTimeout = defConnectTimeout }`. -/
def normConnectTimeout (c : Config) : Config :=
  if c.ConnectTimeout < 1 then { c with ConnectTimeout := defConnectTimeout } else c

/-- Step 11 of `Config.Check`: `if conf.MaxConnLifetime < 1 { conf.MaxConnLifetime = 0 }`. -/
def normMaxConnLifetime (c : Config) : Config :=
  if c.MaxConnLifetime < 1 then { c with MaxConnLifetime := 0 } else c

/-- Step 12 of `Config.Check`: `if conf.CheckIdleInterval < 1 { conf.CheckIdleInterval = defCheckIdleInterval }`. -/
def normCheckIdleInterval (c : Config) : Config :=
  if c.CheckIdleInterval < 1 then { c with CheckIdleInterval := defCheckIdleInterval } else c

/-- The numeric-normalisation part of `Config.Check`, i.e. the twelve `if`
statements of the source in order. -/
def Config.checkNums (c : Config) : Config :=
  normCheckIdleInterval (normMaxConnLifetime (normConnectTimeout (normMaxWaitConnCount
    (normWaitTimeout (normIdleTimeout (normBatchShrink (normBatchIncrementCap
      (normBatchIncrementDefault (normMaxIdleFloor (normMaxIdleDefault (normMinIdle c)))))))))))

/-- `Config.Check`: normalises the numeric fields in place and then rejects a
configuration missing `Creator`, `ConnClose` or `ValidConnected`. Returns the
mutated configuration together with the error, if any. -/
def Config.Check (c : Config) : Config × Option Err :=
  let c := c.checkNums
  if c.hasCreator = false then (c, some Err.noCreator)
  else if c.hasConnClose = false then (c, some Err.noConnClose)
  else if c.hasValidConnected = false then (c, some Err.noValidConnected)
  else (c, none)

/-- `validConn` from `conn.go`: checks the user validator, then the maximum
lifetime, then the idle timeout. The second component records the `Conn`
values passed to `go c.conf.ConnClose(conn)` during the check (the two
timeout branches schedule a close; the validator branch does not). -/
def validConn (conf : Config) (now : Int) (conn : Conn) : Bool × List Conn :=
  if conf.ValidConnected conn = false then (false, [])
  else if 0 < conf.MaxConnLifetime ∧ conf.MaxConnLifetime ≤ (now - conn.createTime) * second then
    (false, [conn])
  else if 1 < conf.IdleTimeout ∧ 0 < conn.putTimeSec ∧ conf.IdleTimeout ≤ (now - conn.putTimeSec) * second then
    (false, [conn])
  else (true, [])

/-- `waitReq`: a suspended `Get` caller. `wid` stands in for the node's
identity (the `e *list.Element` cursor); `buf` is the content of the
capacity-1 delivery channel `ch`. -/
structure waitReq where
  wid : Nat
  hasActiveLock : Bool
  buf : Option Conn
deriving Repr, DecidableEq

/-- The mutable state of a `ConnectPool` that the mutex `c.mx` guards,
plus the close flag. `activeLock` is the number of free tokens currently in
the admission-gate channel; `closed` records whether the `close` channel has
been closed; `nextWid` supplies fresh identities for new `waitReq`s. -/
structure ConnectPool where
  conf : Config
  waitList : List waitReq
  activeWaitList : List waitReq
  connList : List Conn
  connectingCount : Int
  activeNum : Int
  activeLock : Nat
  closed : Bool
  nextWid : Nat

/-- `popFrontConn` from `conn.go`, as a function of the conn list: pops
elements from the front until a valid one is found (its `putTimeSec` is reset
to 0) or the list is exhausted. Returns the popped conn (if any), the
remaining list, and the conns whose close was scheduled by `validConn`. -/
def popFrontConnList (conf : Config) (now : Int) : List Conn → Option Conn × List Conn × List Conn
  | [] => (none, [], [])
  | conn :: rest =>
      let vc := validConn conf now conn
      if vc.1 = true then (some { conn with putTimeSec := 0 }, rest, vc.2)
      else
        let r := popFrontConnList conf now rest
        (r.1, r.2.1, vc.2 ++ r.2.2)

/-- `popFrontConn` lifted to the pool state. -/
def ConnectPool.popFrontConn (c : ConnectPool) (now : Int) : Option Conn × ConnectPool × List Conn :=
  let r := popFrontConnList c.conf now c.connList
  (r.1, { c with connList := r.2.1 }, r.2.2)

/-- `putActiveLock` from the wait-queue file: if `waitList` is empty, release
one token to the gate (when `MaxActive > 0`); otherwise move the head of
`waitList` to the back of `activeWaitList` with `hasActiveLock = true`. -/
def ConnectPool.putActiveLock (c : ConnectPool) : ConnectPool :=
  match c.waitList with
  | [] => if 0 < c.conf.MaxActive then { c with activeLock := c.activeLock + 1 } else c
  | req :: rest =>
      { c with
        waitList := rest,
        activeWaitList := c.activeWaitList ++ [{ req with hasActiveLock := true }] }

/-- The loop body of `useConn` in the buffered variant: it repeatedly detaches
the head of `activeWaitList` and executes `req.ch <- conn` (which, the
channels being buffered with capacity 1, fills the waiter's buffer), and when
the list is exhausted falls through to `return false`. The first component is
the returned boolean, the second the detached waiters with their buffers
filled. -/
def useConnLoop (conn : Conn) : List waitReq → Bool × List waitReq
  | [] => (false, [])
  | req :: rest =>
      let r := useConnLoop conn rest
      (r.1, { req with buf := some conn } :: r.2)

/-- `useConn` of the buffered variant, lifted to the pool state: drains
`activeWaitList`, sending `conn` to every detached waiter, and reports the
boolean the source returns. The third component lists the waiters the conn
was sent to. -/
def ConnectPool.useConn (c : ConnectPool) (conn : Conn) : Bool × ConnectPool × List waitReq :=
  let r := useConnLoop conn c.activeWaitList
  (r.1, { c with activeWaitList := [] }, r.2)

/-- `addWaitReq` : chooses the queue by `hasActiveLock`; a credit-less request
is rejected with `ErrMaxWaitConnLimit` when `MaxWaitConnCount > 0` and
`waitList` is already that long; otherwise a fresh `waitReq` (buffered empty
channel) is appended at the back of the chosen queue. -/
def ConnectPool.addWaitReq (c : ConnectPool) (hasActiveLock : Bool) :
    Except Err (waitReq × ConnectPool) :=
  let req : waitReq := { wid := c.nextWid, hasActiveLock := hasActiveLock, buf := none }
  if hasActiveLock = true then
    Except.ok (req, { c with activeWaitList := c.activeWaitList ++ [req], nextWid := c.nextWid + 1 })
  else if 0 < c.conf.MaxWaitConnCount ∧ c.conf.MaxWaitConnCount ≤ (c.waitList.length : Int) then
    Except.error Err.maxWaitConnLimit
  else
    Except.ok (req, { c with waitList := c.waitList ++ [req], nextWid := c.nextWid + 1 })

/-- `checkNeedConnCount` before subtracting `connectingCount`:
`need = MinIdle + wait - len(connList)`, raised to `BatchIncrement` when
`wait > 0` and `need` is smaller. -/
def ConnectPool.raisedNeed (c : ConnectPool) : Int :=
  let wait : Int := c.activeWaitList.length
  let need := c.conf.MinIdle + wait - (c.connList.length : Int)
  if 0 < wait ∧ need < c.conf.BatchIncrement then c.conf.BatchIncrement else need

/-- `checkNeedConnCount` from `connect.go`. -/
def ConnectPool.checkNeedConnCount (c : ConnectPool) : Int :=
  c.raisedNeed - c.connectingCount

/-- Result of `replenishLackConn`: the new state and the number of
`applyConnectLoop` goroutines launched. -/
structure ReplenishResult where
  state : ConnectPool
  launched : Nat

/-- `replenishLackConn` from `connect.go` (the part executed under the
mutex): returns unchanged when the pool is closed or `need < 1`; otherwise
adds `need` to `connectingCount` and launches `need` creation tasks. -/
def ConnectPool.replenishLackConn (c : ConnectPool) : ReplenishResult :=
  if c.closed = true then { state := c, launched := 0 }
  else
    let need := c.checkNeedConnCount
    if need < 1 then { state := c, launched := 0 }
    else { state := { c with connectingCount := c.connectingCount + need }, launched := need.toNat }

/-- The `for !c.validConn(conn)` substitution loop of `Put`: while the
in-hand conn is invalid, replace it by `popFrontConn()` (resetting its
`putTimeSec`), giving up when the list is exhausted. The fuel argument is
always called with `l.length + 1`, which suffices because each iteration
consumes at least one element of the list; the fuel-0 branch is unreachable.
Returns the selected conn (or `none` for the replenish-and-return path), the
remaining conn list, and the conns whose close was scheduled by the
validations. -/
def putSelectConnFuel (conf : Config) (now : Int) :
    Nat → Conn → List Conn → Option Conn × List Conn × List Conn
  | 0, _conn, l => (none, l, [])
  | Nat.succ fuel, conn, l =>
      let vc := validConn conf now conn
      if vc.1 = true then (some conn, l, vc.2)
      else
        match popFrontConnList conf now l with
        | (none, l2, cl) => (none, l2, vc.2 ++ cl)
        | (some conn2, l2, cl) =>
            let r := putSelectConnFuel conf now fuel { conn2 with putTimeSec := 0 } l2
            (r.1, r.2.1, vc.2 ++ cl ++ r.2.2)

/-- The substitution loop of `Put` with its fuel instantiated. -/
def putSelectConn (conf : Config) (now : Int) (conn : Conn) (l : List Conn) :
    Option Conn × List Conn × List Conn :=
  putSelectConnFuel conf now (l.length + 1) conn l

/-- Result of `Put`: the new state, the conns passed to `ConnClose`, the
waiters the conn was sent to, whether the conn was pushed onto the idle
list, and how many creation tasks the embedded `replenishLackConn` call
launched. -/
structure PutResult where
  state : ConnectPool
  closedConns : List Conn
  delivered : List waitReq
  storedIdle : Bool
  replenishLaunched : Nat

/-- `Put` from the pool file, exactly as written: it decrements `activeNum`
first; then, when `!c.isClose()` (the pool is NOT closed), it invokes
`ConnClose` on the conn and returns; only when the pool IS closed does it run
`putActiveLock`, the validation/substitution loop, `useConn`, and the
push-front onto the idle list. -/
def ConnectPool.Put (c : ConnectPool) (conn : Conn) (now : Int) : PutResult :=
  let c1 : ConnectPool := { c with activeNum := c.activeNum - 1 }
  if c1.closed = false then
    { state := c1, closedConns := [conn], delivered := [], storedIdle := false,
      replenishLaunched := 0 }
  else
    let c2 := c1.putActiveLock
    match putSelectConn c2.conf now conn c2.connList with
    | (none, l2, cl) =>
        let c3 : ConnectPool := { c2 with connList := l2 }
        let r := c3.replenishLackConn
        { state := r.state, closedConns := cl, delivered := [], storedIdle := false,
          replenishLaunched := r.launched }
    | (some conn2, l2, cl) =>
        let c3 : ConnectPool := { c2 with connList := l2 }
        let u := c3.useConn conn2
        if u.1 = true then
          { state := u.2.1, closedConns := cl, delivered := u.2.2, storedIdle := false,
            replenishLaunched := 0 }
        else
          let conn3 : Conn := { conn2 with putTimeSec := now }
          { state := { u.2.1 with connList := conn3 :: u.2.1.connList }, closedConns := cl,
            delivered := u.2.2, storedIdle := true, replenishLaunched := 0 }

/-- Result of `autoPutConn`. -/
structure AutoPutResult where
  state : ConnectPool
  closedConns : List Conn
  delivered : List waitReq
  storedIdle : Bool

/-- `autoPutConn` from the pool file, exactly as written: an invalid conn is
dropped (with any close scheduled by `validConn` itself); then, when
`!c.isClose()` (the pool is NOT closed), `ConnClose` is invoked on the conn
and the function returns; only when the pool IS closed does it run `useConn`
and push the conn at the BACK of the idle list. -/
def ConnectPool.autoPutConn (c : ConnectPool) (conn : Conn) (now : Int) : AutoPutResult :=
  let vc := validConn c.conf now conn
  if vc.1 = false then
    { state := c, closedConns := vc.2, delivered := [], storedIdle := false }
  else if c.closed = false then
    { state := c, closedConns := [conn], delivered := [], storedIdle := false }
  else
    let u := c.useConn conn
    if u.1 = true then
      { state := u.2.1, closedConns := [], delivered := u.2.2, storedIdle := false }
    else
      let conn2 : Conn := { conn with putTimeSec := now }
      { state := { u.2.1 with connList := u.2.1.connList ++ [conn2] }, closedConns := [],
        delivered := u.2.2, storedIdle := true }

/-- The possible outcomes of the locked section of `getLoop`. -/
inductive GetOutcome where
  | errClosed
  | errMaxWait
  | fast (conn : Conn)
  | waitNoCredit (req : waitReq)
  | waitCredit (req : waitReq)
deriving Repr, DecidableEq

/-- Result of `getLoop`'s locked section. `mutexReleased` records whether the
path calls `c.mx.Unlock()` before returning (or never took the mutex);
`needReplenish` records whether the path goes on to call
`replenishLackConn` after unlocking. -/
structure GetResult where
  state : ConnectPool
  outcome : GetOutcome
  closedConns : List Conn
  mutexReleased : Bool
  needReplenish : Bool

/-- The locked section of `getLoop` from the pool file. When `MaxActive > 0`
and no gate token is available, the caller is enqueued without credit (or
rejected by the wait cap); with a token (or no limit), `popFrontConn` is
tried: on a hit `activeNum` is incremented and the conn returned — the
source returns on this path without calling `c.mx.Unlock()`, recorded here
as `mutexReleased := false`; on a miss the caller is enqueued with credit
and replenishment is requested. -/
def ConnectPool.getLoopLocked (c : ConnectPool) (now : Int) : GetResult :=
  if c.closed = true then
    { state := c, outcome := GetOutcome.errClosed, closedConns := [],
      mutexReleased := true, needReplenish := false }
  else if 0 < c.conf.MaxActive ∧ c.activeLock = 0 then
    match c.addWaitReq false with
    | Except.error _ =>
        { state := c, outcome := GetOutcome.errMaxWait, closedConns := [],
          mutexReleased := true, needReplenish := false }
    | Except.ok (req, c2) =>
        { state := c2, outcome := GetOutcome.waitNoCredit req, closedConns := [],
          mutexReleased := true, needReplenish := false }
  else
    let c1 : ConnectPool :=
      if 0 < c.conf.MaxActive then { c with activeLock := c.activeLock - 1 } else c
    match popFrontConnList c1.conf now c1.connList with
    | (some conn, rest, cl) =>
        { state := { c1 with connList := rest, activeNum := c1.activeNum + 1 },
          outcome := GetOutcome.fast conn, closedConns := cl,
          mutexReleased := false, needReplenish := false }
    | (none, rest, cl) =>
        let c2 : ConnectPool := { c1 with connList := rest }
        match c2.addWaitReq true with
        | Except.error _ =>
            { state := c2, outcome := GetOutcome.errMaxWait, closedConns := cl,
              mutexReleased := true, needReplenish := false }
        | Except.ok (req, c3) =>
            { state := c3, outcome := GetOutcome.waitCredit req, closedConns := cl,
              mutexReleased := true, needReplenish := true }

/-- `getLoop` = the locked section followed, on the credit-enqueue path, by
the `replenishLackConn` call the source makes after unlocking. -/
def ConnectPool.getLoop (c : ConnectPool) (now : Int) : GetResult :=
  let r := c.getLoopLocked now
  if r.needReplenish = true then { r with state := (r.state.replenishLackConn).state }
  else r

/-- Result of the timeout reconciliation's locked section. -/
structure ReconcileResult where
  state : ConnectPool
  rescued : Option Conn

/-- The locked reconciliation section of `waitReqGetConnLoop` (buffered
variant): under the mutex, try to receive from the waiter's channel (`buf`):
on a hit keep the conn; otherwise remove the waiter from its queue; in
either case, when the waiter holds the active lock, run `putActiveLock`. -/
def ConnectPool.waitReqReconcile (c : ConnectPool) (req : waitReq) (buf : Option Conn) :
    ReconcileResult :=
  match buf with
  | some conn =>
      let c2 := if req.hasActiveLock = true then c.putActiveLock else c
      { state := c2, rescued := some conn }
  | none =>
      let c1 : ConnectPool :=
        if req.hasActiveLock = true then
          { c with activeWaitList := c.activeWaitList.eraseP (fun w => w.wid == req.wid) }
        else
          { c with waitList := c.waitList.eraseP (fun w => w.wid == req.wid) }
      let c2 := if req.hasActiveLock = true then c1.putActiveLock else c1
      { state := c2, rescued := none }

/-- Result of the whole timeout path of `waitReqGetConnLoop`. -/
structure TimeoutResult where
  state : ConnectPool
  closedConns : List Conn
  rescuedPut : Option Conn
  err : Err

/-- The timeout path of `waitReqGetConnLoop` (buffered variant): the
`ctxWait.Done()` arm sets `err = ErrWaitGetConnTimeout`, then the locked
reconciliation runs, and a rescued conn is handed to `autoPutConn` after the
unlock. `rescuedPut` records the conn passed to `autoPutConn`, if any. -/
def ConnectPool.waitReqGetConnTimeout (c : ConnectPool) (req : waitReq) (buf : Option Conn)
    (now : Int) : TimeoutResult :=
  let r := c.waitReqReconcile req buf
  match r.rescued with
  | some conn =>
      let a := r.state.autoPutConn conn now
      { state := a.state, closedConns := a.closedConns, rescuedPut := some conn,
        err := Err.waitGetConnTimeout }
  | none =>
      { state := r.state, closedConns := [], rescuedPut := none,
        err := Err.waitGetConnTimeout }

/-- The recursive list form of `releaseInvalidConn`'s sweep: walks the conn
list, keeps the valid conns, and removes each invalid one, pairing it with
the conns whose close `validConn` scheduled while checking it (empty exactly
when the user validator said no). Returns (remaining list, removed pairs). -/
def releaseInvalidList (conf : Config) (now : Int) :
    List Conn → List Conn × List (Conn × List Conn)
  | [] => ([], [])
  | conn :: rest =>
      let vc := validConn conf now conn
      let r := releaseInvalidList conf now rest
      if vc.1 = true then (conn :: r.1, r.2)
      else (r.1, (conn, vc.2) :: r.2)

/-- Result of `releaseInvalidConn`. -/
structure SweepResult where
  state : ConnectPool
  removedPairs : List (Conn × List Conn)

/-- `releaseInvalidConn` from `connect.go`: does nothing when both
`IdleTimeout < 1` and `MaxConnLifetime < 1`; otherwise sweeps the idle list
with `validConn`, removing the invalid conns. -/
def ConnectPool.releaseInvalidConn (c : ConnectPool) (now : Int) : SweepResult :=
  if c.conf.IdleTimeout < 1 ∧ c.conf.MaxConnLifetime < 1 then
    { state := c, removedPairs := [] }
  else
    let r := releaseInvalidList c.conf now c.connList
    { state := { c with connList := r.1 }, removedPairs := r.2 }

/-- The shrink loop of `releaseNeedlessConn`: while the idle list is longer
than `MaxIdle` and fewer than `BatchShrink` conns have been shrunk this
tick, remove the BACK element and schedule its close. The fuel is the list
length, which bounds the number of removals. -/
def releaseNeedlessLoop (maxIdle batchShrink : Int) :
    Nat → Int → List Conn → List Conn × List Conn
  | 0, _shrink, l => (l, [])
  | Nat.succ fuel, shrink, l =>
      if maxIdle < (l.length : Int) ∧ shrink < batchShrink then
        match l.getLast? with
        | none => (l, [])
        | some conn =>
            let r := releaseNeedlessLoop maxIdle batchShrink fuel (shrink + 1) l.dropLast
            (r.1, conn :: r.2)
      else (l, [])

/-- `releaseNeedlessConn` from `connect.go`, returning the new state and the
conns whose close was scheduled. -/
def ConnectPool.releaseNeedlessConn (c : ConnectPool) : ConnectPool × List Conn :=
  let r := releaseNeedlessLoop c.conf.MaxIdle c.conf.BatchShrink c.connList.length 0 c.connList
  ({ c with connList := r.1 }, r.2)

/-- The pool state `NewConnectPool` builds: empty queues and idle list, zero
counters, the gate initialised full with `MaxActive` tokens when
`MaxActive > 0`, pool open. -/
def ConnectPool.initState (conf : Config) : ConnectPool :=
  { conf := conf, waitList := [], activeWaitList := [], connList := [],
    connectingCount := 0, activeNum := 0,
    activeLock := if 0 < conf.MaxActive then conf.MaxActive.toNat else 0,
    closed := false, nextWid := 0 }

/-- One atomic mutator step of the pool: each constructor is one critical
section of the source, with its inputs (current time, the conn or waiter
concerned, the channel contents observed) left arbitrary. This
over-approximates the concurrent executions built from `Get`, `Put`,
promotion, timeout removal, replenishment and maintenance. -/
inductive Step : ConnectPool → ConnectPool → Prop where
  | get (c : ConnectPool) (now : Int) : Step c (c.getLoopLocked now).state
  | put (c : ConnectPool) (conn : Conn) (now : Int) : Step c (c.Put conn now).state
  | putCredit (c : ConnectPool) : Step c c.putActiveLock
  | reconcile (c : ConnectPool) (req : waitReq) (buf : Option Conn) :
      Step c (c.waitReqReconcile req buf).state
  | timeout (c : ConnectPool) (req : waitReq) (buf : Option Conn) (now : Int) :
      Step c (c.waitReqGetConnTimeout req buf now).state
  | replenish (c : ConnectPool) : Step c (c.replenishLackConn).state
  | connTaskDone (c : ConnectPool) :
      Step c { c with connectingCount := c.connectingCount - 1 }
  | autoPut (c : ConnectPool) (conn : Conn) (now : Int) :
      Step c (c.autoPutConn conn now).state
  | sweep (c : ConnectPool) (now : Int) : Step c (c.releaseInvalidConn now).state
  | shrink (c : ConnectPool) : Step c (c.releaseNeedlessConn).1

/-- Reachability of pool states from the freshly initialised pool under the
mutator steps. -/
def ReachableFrom (conf : Config) (s : ConnectPool) : Prop :=
  Relation.ReflTransGen Step (ConnectPool.initState conf) s

/-- A well-formed configuration for the concrete evaluations below: the
validator accepts everything, both timeouts disabled, `MaxActive = 10`. -/
def confBase : Config :=
  { WaitFirstConn := false, MinIdle := 2, MaxIdle := 4, MaxActive := 10,
    BatchIncrement := 2, BatchShrink := 2, IdleTimeout := 0,
    WaitTimeout := second * 5, MaxWaitConnCount := 0,
    ConnectTimeout := second * 5, MaxConnLifetime := 0,
    CheckIdleInterval := second * 5,
    ValidConnected := fun _ => true, hasCreator := true, hasConnClose := true,
    hasValidConnected := true }

/-- An open pool with one credit-holding waiter, nine free gate tokens and
one checked-out conn. -/
def poolC1 : ConnectPool :=
  { conf := confBase, waitList := [],
    activeWaitList := [{ wid := 0, hasActiveLock := true, buf := none }],
    connList := [], connectingCount := 0, activeNum := 1, activeLock := 9,
    closed := false, nextWid := 1 }

/-- A valid conn being returned to `poolC1`. -/
def connC1 : Conn := { v := 3, createTime := 0, putTimeSec := 0 }

/-- The conn sitting in `poolC2`'s idle list. -/
def connC2 : Conn := { v := 7, createTime := 5, putTimeSec := 8 }

/-- An open pool with a full admission gate and one valid idle conn. -/
def poolC2 : ConnectPool :=
  { conf := confBase, waitList := [], activeWaitList := [], connList := [connC2],
    connectingCount := 0, activeNum := 0, activeLock := 10,
    closed := false, nextWid := 0 }

/-- A pool whose `activeWaitList` holds two credit-holding waiters. -/
def poolC4 : ConnectPool :=
  { conf := confBase, waitList := [],
    activeWaitList := [{ wid := 1, hasActiveLock := true, buf := none },
                       { wid := 2, hasActiveLock := true, buf := none }],
    connList := [], connectingCount := 0, activeNum := 0, activeLock := 8,
    closed := false, nextWid := 3 }

/-- The conn handed to `useConn` in the `poolC4` evaluation. -/
def connC4 : Conn := { v := 4, createTime := 0, putTimeSec := 0 }

/-- A pool with one credit-less waiter queued, used by the timeout
reconciliation evaluation. -/
def poolC5 : ConnectPool :=
  { conf := confBase, waitList := [{ wid := 5, hasActiveLock := false, buf := none }],
    activeWaitList := [], connList := [], connectingCount := 0, activeNum := 1,
    activeLock := 0, closed := false, nextWid := 6 }

/-- A credit-holding waiter that has timed out (already detached from the
queue by a delivery). -/
def reqC5 : waitReq := { wid := 4, hasActiveLock := true, buf := none }

/-- The conn found in the timed-out waiter's channel buffer. -/
def connC5 : Conn := { v := 9, createTime := 0, putTimeSec := 0 }

/-- An open, empty pool below its idle target, for the replenishment
evaluation. -/
def poolC6 : ConnectPool :=
  { conf := confBase, waitList := [], activeWaitList := [], connList := [],
    connectingCount := 0, activeNum := 0, activeLock := 10,
    closed := false, nextWid := 0 }

/-- A configuration whose validator rejects every conn, with a finite
maximum lifetime so the sweep guard passes. -/
def confC7 : Config :=
  { confBase with ValidConnected := fun _ => false, MaxConnLifetime := second }

/-- The conn removed by the sweep because the validator said no. -/
def connC7 : Conn := { v := 11, createTime := 1, putTimeSec := 0 }

/-- A pool holding `connC7` idle, under `confC7`. -/
def poolC7 : ConnectPool :=
  { conf := confC7, waitList := [], activeWaitList := [], connList := [connC7],
    connectingCount := 0, activeNum := 0, activeLock := 10,
    closed := false, nextWid := 0 }

/-- A configuration with a one-second maximum lifetime and an accepting
validator. -/
def confC7w : Config := { confBase with MaxConnLifetime := second }

/-- A conn that has exceeded the maximum lifetime at time 1. -/
def connC7w : Conn := { v := 12, createTime := 0, putTimeSec := 0 }

/-- A pool holding `connC7w` idle, under `confC7w`. -/
def poolC7w : ConnectPool :=
  { conf := confC7w, waitList := [], activeWaitList := [], connList := [connC7w],
    connectingCount := 0, activeNum := 0, activeLock := 10,
    closed := false, nextWid := 0 }

/-- A raw configuration with `MinIdle = 1` set and `MaxIdle` unset. -/
def cfgC8 : Config :=
  { WaitFirstConn := false, MinIdle := 1, MaxIdle := 0, MaxActive := 10,
    BatchIncrement := 0, BatchShrink := 0, IdleTimeout := 0,
    WaitTimeout := second * 5, MaxWaitConnCount := 0,
    ConnectTimeout := second * 5, MaxConnLifetime := 0,
    CheckIdleInterval := second * 5,
    ValidConnected := fun _ => true, hasCreator := true, hasConnClose := true,
    hasValidConnected := true }

/-- A raw configuration with `MaxIdle` set smaller than `MinIdle`. -/
def cfgC8b : Config := { cfgC8 with MinIdle := 10, MaxIdle := 5 }

/-- A pool whose credit-less wait queue has reached `MaxWaitConnCount`. -/
def poolC9 : ConnectPool :=
  { conf := { confBase with MaxWaitConnCount := 1 },
    waitList := [{ wid := 0, hasActiveLock := false, buf := none }],
    activeWaitList := [], connList := [], connectingCount := 0, activeNum := 0,
    activeLock := 0, closed := false, nextWid := 1 }

/-- An open pool with `activeNum = 0` (no conn checked out). -/
def poolC10 : ConnectPool :=
  { conf := confBase, waitList := [], activeWaitList := [], connList := [],
    connectingCount := 0, activeNum := 0, activeLock := 10,
    closed := false, nextWid := 0 }

/-- A conn for the unmatched `Put` evaluation. -/
def connC10 : Conn := { v := 1, createTime := 0, putTimeSec := 0 }

/-- The state after one `Get` step on the fresh pool: the caller takes a
gate token, finds the idle list empty and enqueues with credit. -/
def poolC3a : ConnectPool := ((ConnectPool.initState confBase).getLoopLocked 0).state

theorem normMaxIdleDefault_MinIdle (c : Config) : (normMaxIdleDefault c).MinIdle = c.MinIdle := by
  unfold normMaxIdleDefault; split <;> rfl

theorem normMaxIdleFloor_MinIdle (c : Config) : (normMaxIdleFloor c).MinIdle = c.MinIdle := by
  unfold normMaxIdleFloor; split <;> rfl

theorem normBatchIncrementDefault_MinIdle (c : Config) :
    (normBatchIncrementDefault c).MinIdle = c.MinIdle := by
  unfold normBatchIncrementDefault; split <;> rfl

theorem normBatchIncrementCap_MinIdle (c : Config) :
    (normBatchIncrementCap c).MinIdle = c.MinIdle := by
  unfold normBatchIncrementCap; split <;> rfl

theorem normBatchShrink_MinIdle (c : Config) : (normBatchShrink c).MinIdle = c.MinIdle := by
  unfold normBatchShrink; split <;> rfl

theorem normIdleTimeout_MinIdle (c : Config) : (normIdleTimeout c).MinIdle = c.MinIdle := by
  unfold normIdleTimeout; split <;> rfl

theorem normWaitTimeout_MinIdle (c : Config) : (normWaitTimeout c).MinIdle = c.MinIdle := by
  unfold normWaitTimeout; split <;> rfl

theorem normMaxWaitConnCount_MinIdle (c : Config) :
    (normMaxWaitConnCount c).MinIdle = c.MinIdle := by
  unfold normMaxWaitConnCount; split <;> rfl

theorem normConnectTimeout_MinIdle (c : Config) : (normConnectTimeout c).MinIdle = c.MinIdle := by
  unfold normConnectTimeout; split <;> rfl

theorem normMaxConnLifetime_MinIdle (c : Config) : (normMaxConnLifetime c).MinIdle = c.MinIdle := by
  unfold normMaxConnLifetime; split <;> rfl

theorem normCheckIdleInterval_MinIdle (c : Config) :
    (normCheckIdleInterval c).MinIdle = c.MinIdle := by
  unfold normCheckIdleInterval; split <;> rfl

theorem normMinIdle_MaxIdle (c : Config) : (normMinIdle c).MaxIdle = c.MaxIdle := by
  unfold normMinIdle; split <;> rfl

theorem normBatchIncrementDefault_MaxIdle (c : Config) :
    (normBatchIncrementDefault c).MaxIdle = c.MaxIdle := by
  unfold normBatchIncrementDefault; split <;> rfl

theorem normBatchIncrementCap_MaxIdle (c : Config) :
    (normBatchIncrementCap c).MaxIdle = c.MaxIdle := by
  unfold normBatchIncrementCap; split <;> rfl

theorem normBatchShrink_MaxIdle (c : Config) : (normBatchShrink c).MaxIdle = c.MaxIdle := by
  unfold normBatchShrink; split <;> rfl

theorem normIdleTimeout_MaxIdle (c : Config) : (normIdleTimeout c).MaxIdle = c.MaxIdle := by
  unfold normIdleTimeout; split <;> rfl

theorem normWaitTimeout_MaxIdle (c : Config) : (normWaitTimeout c).MaxIdle = c.MaxIdle := by
  unfold normWaitTimeout; split <;> rfl

theorem normMaxWaitConnCount_MaxIdle (c : Config) :
    (normMaxWaitConnCount c).MaxIdle = c.MaxIdle := by
  unfold normMaxWaitConnCount; split <;> rfl

theorem normConnectTimeout_MaxIdle (c : Config) : (normConnectTimeout c).MaxIdle = c.MaxIdle := by
  unfold normConnectTimeout; split <;> rfl

theorem normMaxConnLifetime_MaxIdle (c : Config) : (normMaxConnLifetime c).MaxIdle = c.MaxIdle := by
  unfold normMaxConnLifetime; split <;> rfl

theorem normCheckIdleInterval_MaxIdle (c : Config) :
    (normCheckIdleInterval c).MaxIdle = c.MaxIdle := by
  unfold normCheckIdleInterval; split <;> rfl

theorem normBatchShrink_BatchIncrement (c : Config) :
    (normBatchShrink c).BatchIncrement = c.BatchIncrement := by
  unfold normBatchShrink; split <;> rfl

theorem normIdleTimeout_BatchIncrement (c : Config) :
    (normIdleTimeout c).BatchIncrement = c.BatchIncrement := by
  unfold normIdleTimeout; split <;> rfl

theorem normWaitTimeout_BatchIncrement (c : Config) :
    (normWaitTimeout c).BatchIncrement = c.BatchIncrement := by
  unfold normWaitTimeout; split <;> rfl

theorem normMaxWaitConnCount_BatchIncrement (c : Config) :
    (normMaxWaitConnCount c).BatchIncrement = c.BatchIncrement := by
  unfold normMaxWaitConnCount; split <;> rfl

theorem normConnectTimeout_BatchIncrement (c : Config) :
    (normConnectTimeout c).BatchIncrement = c.BatchIncrement := by
  unfold normConnectTimeout; split <;> rfl

theorem normMaxConnLifetime_BatchIncrement (c : Config) :
    (normMaxConnLifetime c).BatchIncrement = c.BatchIncrement := by
  unfold normMaxConnLifetime; split <;> rfl

theorem normCheckIdleInterval_BatchIncrement (c : Config) :
    (normCheckIdleInterval c).BatchIncrement = c.BatchIncrement := by
  unfold normCheckIdleInterval; split <;> rfl

theorem checkNums_MinIdle (c : Config) :
    c.checkNums.MinIdle = if c.MinIdle < 1 then 2 else c.MinIdle := by
  unfold Config.checkNums
  rw [normCheckIdleInterval_MinIdle, normMaxConnLifetime_MinIdle, normConnectTimeout_MinIdle,
    normMaxWaitConnCount_MinIdle, normWaitTimeout_MinIdle, normIdleTimeout_MinIdle,
    normBatchShrink_MinIdle, normBatchIncrementCap_MinIdle, normBatchIncrementDefault_MinIdle,
    normMaxIdleFloor_MinIdle, normMaxIdleDefault_MinIdle]
  unfold normMinIdle
  split <;> simp [defMinIdle]

theorem checkNums_MaxIdle (c : Config) :
    c.checkNums.MaxIdle =
      (if (if c.MaxIdle < 1 then 4 else c.MaxIdle) < (if c.MinIdle < 1 then 2 else c.MinIdle)
       then (if c.MinIdle < 1 then 2 else c.MinIdle) * 2
       else (if c.MaxIdle < 1 then 4 else c.MaxIdle)) := by
  unfold Config.checkNums
  rw [normCheckIdleInterval_MaxIdle, normMaxConnLifetime_MaxIdle, normConnectTimeout_MaxIdle,
    normMaxWaitConnCount_MaxIdle, normWaitTimeout_MaxIdle, normIdleTimeout_MaxIdle,
    normBatchShrink_MaxIdle, normBatchIncrementCap_MaxIdle, normBatchIncrementDefault_MaxIdle]
  by_cases h1 : c.MinIdle < 1 <;> by_cases h2 : c.MaxIdle < 1 <;>
    simp [normMaxIdleFloor, normMaxIdleDefault, normMinIdle, h1, h2, defMinIdle, defMaxIdle] <;>
    split_ifs <;> rfl

theorem checkNums_BatchIncrement (c : Config) :
    c.checkNums.BatchIncrement =
      (if c.checkNums.MaxIdle < (if c.BatchIncrement < 1 then c.checkNums.MinIdle else c.BatchIncrement)
       then c.checkNums.MaxIdle
       else (if c.BatchIncrement < 1 then c.checkNums.MinIdle else c.BatchIncrement)) := by
  have hMin : c.checkNums.MinIdle = (normMinIdle c).MinIdle := by
    unfold Config.checkNums
    rw [normCheckIdleInterval_MinIdle, normMaxConnLifetime_MinIdle, normConnectTimeout_MinIdle,
      normMaxWaitConnCount_MinIdle, normWaitTimeout_MinIdle, normIdleTimeout_MinIdle,
      normBatchShrink_MinIdle, normBatchIncrementCap_MinIdle, normBatchIncrementDefault_MinIdle,
      normMaxIdleFloor_MinIdle, normMaxIdleDefault_MinIdle]
  have hMax : c.checkNums.MaxIdle = (normMaxIdleFloor (normMaxIdleDefault (normMinIdle c))).MaxIdle := by
    unfold Config.checkNums
    rw [normCheckIdleInterval_MaxIdle, normMaxConnLifetime_MaxIdle, normConnectTimeout_MaxIdle,
      normMaxWaitConnCount_MaxIdle, normWaitTimeout_MaxIdle, normIdleTimeout_MaxIdle,
      normBatchShrink_MaxIdle, normBatchIncrementCap_MaxIdle, normBatchIncrementDefault_MaxIdle]
  rw [hMin, hMax]
  unfold Config.checkNums
  rw [normCheckIdleInterval_BatchIncrement, normMaxConnLifetime_BatchIncrement,
    normConnectTimeout_BatchIncrement, normMaxWaitConnCount_BatchIncrement,
    normWaitTimeout_BatchIncrement, normIdleTimeout_BatchIncrement,
    normBatchShrink_BatchIncrement]
  by_cases h1 : c.MinIdle < 1 <;> by_cases h2 : c.MaxIdle < 1 <;> by_cases h3 : c.BatchIncrement < 1 <;>
    simp [normBatchIncrementCap, normBatchIncrementDefault, normMaxIdleFloor, normMaxIdleDefault,
      normMinIdle, h1, h2, h3, defMinIdle, defMaxIdle] <;>
    split_ifs <;> rfl

theorem Check_fst (c : Config) : (Config.Check c).1 = c.checkNums := by
  unfold Config.Check
  dsimp only
  split_ifs <;> rfl

/-- Claim C8, counterexample: with `MinIdle = 1` set and `MaxIdle` unset,
`Config.Check` sets `MaxIdle` to the package constant 4, not to
`max(MinIdle*2, 1) = 2` as claimed; and with `MinIdle = 10, MaxIdle = 5`,
`MaxIdle` is raised to `MinIdle*2 = 20`, not to `MinIdle = 10` as
claimed. -/
theorem C8_counterexample :
    (Config.Check cfgC8).1.MaxIdle = 4
    ∧ cfgC8.MinIdle = 1
    ∧ max (cfgC8.MinIdle * 2) 1 = 2
    ∧ (Config.Check cfgC8b).1.MaxIdle = 20
    ∧ cfgC8b.MinIdle = 10
    ∧ cfgC8b.MaxIdle = 5 := by
  refine ⟨rfl, rfl, by decide, rfl, rfl, rfl⟩

/-- Claim C8, amended: after `Config.Check`, an unset `MinIdle` defaults to
2; an unset `MaxIdle` (value < 1) defaults to the constant 4, and a
`MaxIdle` smaller than `MinIdle` is then raised to `MinIdle * 2`; an unset
`BatchIncrement` (value < 1) defaults to `MinIdle`, and `BatchIncrement` is
clamped into the range `[1, MaxIdle]`. -/
theorem C8_config_normalisation (cfg : Config) :
    (Config.Check cfg).1.MinIdle = (if cfg.MinIdle < 1 then 2 else cfg.MinIdle)
    ∧ (Config.Check cfg).1.MaxIdle =
        (if (if cfg.MaxIdle < 1 then 4 else cfg.MaxIdle) < (if cfg.MinIdle < 1 then 2 else cfg.MinIdle)
         then (if cfg.MinIdle < 1 then 2 else cfg.MinIdle) * 2
         else (if cfg.MaxIdle < 1 then 4 else cfg.MaxIdle))
    ∧ (Config.Check cfg).1.BatchIncrement =
        (if (Config.Check cfg).1.MaxIdle <
              (if cfg.BatchIncrement < 1 then (Config.Check cfg).1.MinIdle else cfg.BatchIncrement)
         then (Config.Check cfg).1.MaxIdle
         else (if cfg.BatchIncrement < 1 then (Config.Check cfg).1.MinIdle else cfg.BatchIncrement))
    ∧ 1 ≤ (Config.Check cfg).1.BatchIncrement
    ∧ (Config.Check cfg).1.BatchIncrement ≤ (Config.Check cfg).1.MaxIdle := by
  rw [Check_fst]
  refine ⟨checkNums_MinIdle cfg, checkNums_MaxIdle cfg, checkNums_BatchIncrement cfg, ?_, ?_⟩
  · rw [checkNums_BatchIncrement cfg, checkNums_MaxIdle cfg, checkNums_MinIdle cfg]
    split_ifs <;> omega
  · rw [checkNums_BatchIncrement cfg, checkNums_MaxIdle cfg, checkNums_MinIdle cfg]
    split_ifs <;> omega

/-- Claim C9: `addWaitReq` fails exactly when the waiter holds no credit,
`MaxWaitConnCount > 0` and the credit-less wait queue has already reached
`MaxWaitConnCount`; the only error is `ErrMaxWaitConnLimit`; a
credit-holding waiter never fails; on success the new waiter is appended at
the tail of the appropriate queue and the other queue is untouched. -/
theorem C9_addWaitReq (c : ConnectPool) (hasLock : Bool) :
    ((∃ e, c.addWaitReq hasLock = Except.error e)
      ↔ (hasLock = false ∧ 0 < c.conf.MaxWaitConnCount
          ∧ c.conf.MaxWaitConnCount ≤ (c.waitList.length : Int)))
    ∧ (∀ e, c.addWaitReq hasLock = Except.error e → e = Err.maxWaitConnLimit)
    ∧ (∀ req c2, c.addWaitReq hasLock = Except.ok (req, c2) →
        (hasLock = true →
          c2.activeWaitList = c.activeWaitList ++ [req] ∧ c2.waitList = c.waitList)
        ∧ (hasLock = false →
          c2.waitList = c.waitList ++ [req] ∧ c2.activeWaitList = c.activeWaitList)) := by
  cases hasLock with
  | true =>
      have hdef : c.addWaitReq true = Except.ok
          ({ wid := c.nextWid, hasActiveLock := true, buf := none },
           { c with activeWaitList :=
                      c.activeWaitList ++ [{ wid := c.nextWid, hasActiveLock := true, buf := none }],
                    nextWid := c.nextWid + 1 }) := rfl
      refine ⟨?_, ?_, ?_⟩
      · rw [hdef]; simp
      · intro e he; rw [hdef] at he; cases he
      · intro req c2 hok
        rw [hdef] at hok
        injection hok with hpair
        obtain ⟨rfl, rfl⟩ := Prod.mk.inj hpair
        exact ⟨fun _ => ⟨rfl, rfl⟩, fun hff => by cases hff⟩
  | false =>
      have hdef : c.addWaitReq false =
          (if 0 < c.conf.MaxWaitConnCount ∧ c.conf.MaxWaitConnCount ≤ (c.waitList.length : Int)
           then Except.error Err.maxWaitConnLimit
           else Except.ok
              ({ wid := c.nextWid, hasActiveLock := false, buf := none },
               { c with waitList :=
                          c.waitList ++ [{ wid := c.nextWid, hasActiveLock := false, buf := none }],
                        nextWid := c.nextWid + 1 })) := rfl
      by_cases h : 0 < c.conf.MaxWaitConnCount ∧ c.conf.MaxWaitConnCount ≤ (c.waitList.length : Int)
      · have hdef2 : c.addWaitReq false = Except.error Err.maxWaitConnLimit := by
          rw [hdef, if_pos h]
        refine ⟨⟨fun _ => ⟨rfl, h.1, h.2⟩, fun _ => ⟨Err.maxWaitConnLimit, hdef2⟩⟩, ?_, ?_⟩
        · intro e he; rw [hdef2] at he; exact (Except.error.inj he).symm
        · intro req c2 hok; rw [hdef2] at hok; cases hok
      · have hdef2 : c.addWaitReq false = Except.ok
            ({ wid := c.nextWid, hasActiveLock := false, buf := none },
             { c with waitList :=
                        c.waitList ++ [{ wid := c.nextWid, hasActiveLock := false, buf := none }],
                      nextWid := c.nextWid + 1 }) := by
          rw [hdef, if_neg h]
        refine ⟨⟨?_, ?_⟩, ?_, ?_⟩
        · rintro ⟨e, he⟩; rw [hdef2] at he; cases he
        · rintro ⟨_, h1, h2⟩; exact absurd ⟨h1, h2⟩ h
        · intro e he; rw [hdef2] at he; cases he
        · intro req c2 hok
          rw [hdef2] at hok
          injection hok with hpair
          obtain ⟨rfl, rfl⟩ := Prod.mk.inj hpair
          exact ⟨fun htt => (by cases htt), fun _ => ⟨rfl, rfl⟩⟩

/-- Witness for C9: a pool whose credit-less queue has reached the cap
rejects a credit-less waiter. -/
theorem C9_addWaitReq_witness : ∃ e, poolC9.addWaitReq false = Except.error e :=
  (C9_addWaitReq poolC9 false).1.mpr ⟨rfl, by decide, by decide⟩

theorem putActiveLock_activeNum (c : ConnectPool) : c.putActiveLock.activeNum = c.activeNum := by
  cases hl : c.waitList with
  | nil => simp only [ConnectPool.putActiveLock, hl]; split <;> rfl
  | cons r rest => simp only [ConnectPool.putActiveLock, hl]

theorem putActiveLock_connList (c : ConnectPool) : c.putActiveLock.connList = c.connList := by
  cases hl : c.waitList with
  | nil => simp only [ConnectPool.putActiveLock, hl]; split <;> rfl
  | cons r rest => simp only [ConnectPool.putActiveLock, hl]

theorem putActiveLock_closed (c : ConnectPool) : c.putActiveLock.closed = c.closed := by
  cases hl : c.waitList with
  | nil => simp only [ConnectPool.putActiveLock, hl]; split <;> rfl
  | cons r rest => simp only [ConnectPool.putActiveLock, hl]

theorem replenishLackConn_activeNum (c : ConnectPool) :
    c.replenishLackConn.state.activeNum = c.activeNum := by
  unfold ConnectPool.replenishLackConn
  dsimp only
  split_ifs <;> rfl

theorem replenishLackConn_connList (c : ConnectPool) :
    c.replenishLackConn.state.connList = c.connList := by
  unfold ConnectPool.replenishLackConn
  dsimp only
  split_ifs <;> rfl

theorem replenishLackConn_closed (c : ConnectPool) :
    c.replenishLackConn.state.closed = c.closed := by
  unfold ConnectPool.replenishLackConn
  dsimp only
  split_ifs <;> rfl

/-- Claim C10: `Put` decrements `activeNum` by exactly one, unconditionally
(whatever the pool state — open or closed — and whatever the handle), and an
unmatched `Put` on a pool with `activeNum = 0` drives the counter
negative. -/
theorem C10_put_decrements (c : ConnectPool) (conn : Conn) (now : Int) :
    (c.Put conn now).state.activeNum = c.activeNum - 1
    ∧ (c.activeNum = 0 → (c.Put conn now).state.activeNum < 0) := by
  have hmain : (c.Put conn now).state.activeNum = c.activeNum - 1 := by
    unfold ConnectPool.Put
    dsimp only
    split_ifs with h
    · rfl
    · rcases hps : putSelectConn ({ c with activeNum := c.activeNum - 1 } : ConnectPool).putActiveLock.conf now conn
          ({ c with activeNum := c.activeNum - 1 } : ConnectPool).putActiveLock.connList with ⟨o, l2, cl⟩
      cases o with
      | none =>
          simp only [hps]
          rw [replenishLackConn_activeNum]
          exact putActiveLock_activeNum _
      | some conn2 =>
          simp only [hps, ConnectPool.useConn]
          split_ifs <;> exact putActiveLock_activeNum _
  exact ⟨hmain, fun h0 => by rw [hmain, h0]; decide⟩

/-- Witness for C10: one `Put` on an open pool with nothing checked out
leaves `activeNum = -1`. -/
theorem C10_put_decrements_witness :
    poolC10.activeNum = 0 ∧ (poolC10.Put connC10 0).state.activeNum < 0 :=
  ⟨rfl, (C10_put_decrements poolC10 connC10 0).2 rfl⟩

theorem validConn_closer_spec (conf : Config) (now : Int) (conn : Conn) :
    ((validConn conf now conn).1 = true → (validConn conf now conn).2 = [])
    ∧ (conf.ValidConnected conn = false → (validConn conf now conn).2 = [])
    ∧ ((validConn conf now conn).1 = false → conf.ValidConnected conn = true →
        (validConn conf now conn).2 = [conn]) := by
  unfold validConn
  split_ifs with h1 h2 h3 <;> simp_all

theorem releaseInvalidList_pairs (conf : Config) (now : Int) :
    ∀ (l : List Conn), ∀ p ∈ (releaseInvalidList conf now l).2,
      (conf.ValidConnected p.1 = true → p.2 = [p.1])
      ∧ (conf.ValidConnected p.1 = false → p.2 = []) := by
  intro l
  induction l with
  | nil => intro p hp; simp [releaseInvalidList] at hp
  | cons a t ih =>
      intro p hp
      by_cases hv : (validConn conf now a).1 = true
      · rw [show releaseInvalidList conf now (a :: t) =
            (a :: (releaseInvalidList conf now t).1, (releaseInvalidList conf now t).2) by
              simp [releaseInvalidList, hv]] at hp
        exact ih p hp
      · rw [show releaseInvalidList conf now (a :: t) =
            ((releaseInvalidList conf now t).1,
             (a, (validConn conf now a).2) :: (releaseInvalidList conf now t).2) by
              simp [releaseInvalidList, hv]] at hp
        rcases List.mem_cons.mp hp with h | h
        · subst h
          refine ⟨fun hVC => ?_, fun hVC => ?_⟩
          · exact (validConn_closer_spec conf now a).2.2 (by simpa using hv) hVC
          · exact (validConn_closer_spec conf now a).2.1 hVC
        · exact ih p h

/-- Claim C7, amended: in the maintainer's invalid sweep every handle
removed because its age or idle time expired has the Closer scheduled for it
(by the validation itself), but a handle removed because the user Validator
returned false is removed WITHOUT any Closer invocation. -/
theorem C7_sweep_closer (c : ConnectPool) (now : Int) :
    ∀ p ∈ (c.releaseInvalidConn now).removedPairs,
      (c.conf.ValidConnected p.1 = true → p.2 = [p.1])
      ∧ (c.conf.ValidConnected p.1 = false → p.2 = []) := by
  intro p hp
  unfold ConnectPool.releaseInvalidConn at hp
  split_ifs at hp
  · simp at hp
  · exact releaseInvalidList_pairs c.conf now c.connList p hp

/-- Claim C7, counterexample: a handle the Validator rejects is removed from
the idle store with NO Closer scheduled, contradicting the claim that no
removed handle is discarded without a Closer invocation. -/
theorem C7_counterexample :
    (poolC7.releaseInvalidConn 1).removedPairs = [(connC7, [])]
    ∧ (poolC7.releaseInvalidConn 1).state.connList = []
    ∧ (∃ p ∈ (poolC7.releaseInvalidConn 1).removedPairs, p.2 = []) := by
  refine ⟨rfl, rfl, ⟨(connC7, []), by decide, rfl⟩⟩

/-- Witness for C7 (amended): a lifetime-expired handle is removed with its
Closer scheduled. -/
theorem C7_sweep_closer_witness :
    (connC7w, [connC7w]) ∈ (poolC7w.releaseInvalidConn 1).removedPairs
    ∧ confC7w.ValidConnected connC7w = true
    ∧ ((connC7w, [connC7w]) : Conn × List Conn).2 = [connC7w] :=
  ⟨by decide, rfl, (C7_sweep_closer poolC7w 1 (connC7w, [connC7w]) (by decide)).1 rfl⟩

/-- Claim C6: `replenishLackConn` on an open pool computes
`need = MinIdle + wait - idle`, raised to `BatchIncrement` when waiters
exist (`raisedNeed`), minus `connecting`; only when the result is positive
does it add exactly that amount to `connecting` and launch exactly that many
creation tasks; it launches at most `raisedNeed - connecting` tasks, and
`connecting` stays non-negative. -/
theorem C6_replenish (c : ConnectPool) (h0 : 0 ≤ c.connectingCount)
    (hopen : c.closed = false) :
    ((c.replenishLackConn.launched : Int) = max c.checkNeedConnCount 0)
    ∧ c.replenishLackConn.state.connectingCount = c.connectingCount + max c.checkNeedConnCount 0
    ∧ ((c.replenishLackConn.launched : Int) ≤ max (c.raisedNeed - c.connectingCount) 0)
    ∧ 0 ≤ c.replenishLackConn.state.connectingCount
    ∧ (c.checkNeedConnCount < 1 →
        c.replenishLackConn.state = c ∧ c.replenishLackConn.launched = 0)
    ∧ c.checkNeedConnCount = c.raisedNeed - c.connectingCount := by
  have hcr : c.checkNeedConnCount = c.raisedNeed - c.connectingCount := rfl
  have hr : c.replenishLackConn =
      (if c.checkNeedConnCount < 1 then { state := c, launched := 0 }
       else { state := { c with connectingCount := c.connectingCount + c.checkNeedConnCount },
              launched := c.checkNeedConnCount.toNat }) := by
    unfold ConnectPool.replenishLackConn
    rw [hopen, if_neg (by decide)]
  rw [hr]
  by_cases h : c.checkNeedConnCount < 1
  · rw [if_pos h]
    dsimp only
    refine ⟨by omega, by omega, by omega, by omega, fun _ => ⟨rfl, rfl⟩, hcr⟩
  · rw [if_neg h]
    dsimp only
    refine ⟨by omega, by omega, by omega, by omega, fun hlt => absurd hlt h, hcr⟩

/-- Witness for C6 at a fresh open pool two below its idle target. -/
theorem C6_replenish_witness :
    0 ≤ poolC6.connectingCount ∧ poolC6.closed = false
    ∧ (poolC6.replenishLackConn.launched : Int) = max poolC6.checkNeedConnCount 0 :=
  ⟨by decide, rfl, (C6_replenish poolC6 (by decide) rfl).1⟩

theorem useConnLoop_false (conn : Conn) :
    ∀ l : List waitReq, (useConnLoop conn l).1 = false := by
  intro l
  induction l with
  | nil => rfl
  | cons r t ih => simpa [useConnLoop] using ih

/-- Claim C4, code evaluation: the buffered-variant `useConn` NEVER reports
`delivered` — it returns false even after successfully sending the handle,
and it sends the same handle to EVERY queued waiter instead of stopping at
the first successful send: at the failing input (two waiters), both waiter
buffers receive the handle and the routine still reports not-delivered, so
the caller also stores the already-delivered handle in the idle list. -/
theorem C4_useConn_never_reports_delivered :
    (∀ (c : ConnectPool) (conn : Conn), (c.useConn conn).1 = false)
    ∧ poolC4.activeWaitList.length = 2
    ∧ (poolC4.useConn connC4).2.2 =
        [{ wid := 1, hasActiveLock := true, buf := some connC4 },
         { wid := 2, hasActiveLock := true, buf := some connC4 }]
    ∧ (poolC4.useConn connC4).2.1.activeWaitList = []
    ∧ (poolC4.useConn connC4).1 = false := by
  refine ⟨fun c conn => useConnLoop_false conn c.activeWaitList, rfl, by decide, rfl, rfl⟩

/-- Claim C1, code evaluation: at an OPEN pool with a credit-holding waiter
and a valid handle, `Put` invokes the Closer on the handle and neither
delivers it nor stores it (and `autoPutConn` behaves the same), because the
`isClose` test in both functions is inverted. -/
theorem C1_put_closes_open_pool :
    poolC1.closed = false
    ∧ (validConn poolC1.conf 5 connC1).1 = true
    ∧ poolC1.activeWaitList ≠ []
    ∧ (poolC1.Put connC1 5).closedConns = [connC1]
    ∧ (poolC1.Put connC1 5).delivered = []
    ∧ (poolC1.Put connC1 5).storedIdle = false
    ∧ (poolC1.Put connC1 5).state.connList = []
    ∧ (poolC1.autoPutConn connC1 5).closedConns = [connC1]
    ∧ (poolC1.autoPutConn connC1 5).delivered = []
    ∧ (poolC1.autoPutConn connC1 5).storedIdle = false := by
  decide

/-- Claim C2, code evaluation: on the fast path (gate token available, a
valid idle handle present) `getLoop` pops the newest valid idle handle,
increments `activeNum` by one, takes exactly one gate token and leaves the
wait queues and the connecting counter untouched — but it returns WITHOUT
releasing the pool mutex (`mutexReleased = false`), the source lacking the
`Unlock` call on this path. -/
theorem C2_get_fast_path_keeps_mutex :
    poolC2.closed = false
    ∧ 0 < poolC2.activeLock
    ∧ poolC2.connList = [connC2]
    ∧ (poolC2.getLoop 9).outcome = GetOutcome.fast { connC2 with putTimeSec := 0 }
    ∧ (poolC2.getLoop 9).state.activeNum = poolC2.activeNum + 1
    ∧ (poolC2.getLoop 9).state.waitList = poolC2.waitList
    ∧ (poolC2.getLoop 9).state.activeWaitList = poolC2.activeWaitList
    ∧ (poolC2.getLoop 9).state.connectingCount = poolC2.connectingCount
    ∧ (poolC2.getLoop 9).state.activeLock + 1 = poolC2.activeLock
    ∧ (poolC2.getLoop 9).state.connList = []
    ∧ (poolC2.getLoop 9).state.closed = false
    ∧ (poolC2.getLoop 9).mutexReleased = false := by
  decide

theorem autoPutConn_waitList (c : ConnectPool) (conn : Conn) (now : Int) :
    (c.autoPutConn conn now).state.waitList = c.waitList := by
  unfold ConnectPool.autoPutConn
  dsimp only
  split_ifs <;> rfl

theorem autoPutConn_activeLock (c : ConnectPool) (conn : Conn) (now : Int) :
    (c.autoPutConn conn now).state.activeLock = c.activeLock := by
  unfold ConnectPool.autoPutConn
  dsimp only
  split_ifs <;> rfl

theorem putActiveLock_of_nil (c : ConnectPool) (h : c.waitList = [])
    (hma : 0 < c.conf.MaxActive) :
    c.putActiveLock = { c with activeLock := c.activeLock + 1 } := by
  simp only [ConnectPool.putActiveLock, h]
  rw [if_pos hma]

theorem putActiveLock_of_cons (c : ConnectPool) (w : waitReq) (rest : List waitReq)
    (h : c.waitList = w :: rest) :
    c.putActiveLock =
      { c with waitList := rest,
               activeWaitList := c.activeWaitList ++ [{ w with hasActiveLock := true }] } := by
  simp only [ConnectPool.putActiveLock, h]

/-- Claim C5: the timeout path of `waitReqGetConnLoop` fails with
`ErrWaitGetConnTimeout`; a handle that arrived in the waiter's channel buffer
is accepted and re-dispatched via `autoPutConn` (the queues are not touched
by any removal in that case); otherwise the waiter is removed from its own
queue; in either case a credit-holding waiter returns its credit via
`putActiveLock` — handing it to the head of `waitList` if one is queued,
else releasing a gate token when `MaxActive > 0`. -/
theorem C5_timeout_reconciliation (c : ConnectPool) (req : waitReq) (buf : Option Conn)
    (now : Int) :
    (c.waitReqGetConnTimeout req buf now).err = Err.waitGetConnTimeout
    ∧ (∀ conn, buf = some conn →
        (c.waitReqGetConnTimeout req buf now).rescuedPut = some conn
        ∧ (c.waitReqGetConnTimeout req buf now).state =
            ((if req.hasActiveLock = true then c.putActiveLock else c).autoPutConn conn now).state)
    ∧ (buf = none →
        (c.waitReqGetConnTimeout req buf now).rescuedPut = none
        ∧ (req.hasActiveLock = false →
            (c.waitReqGetConnTimeout req buf now).state =
              { c with waitList := c.waitList.eraseP (fun w => w.wid == req.wid) })
        ∧ (req.hasActiveLock = true →
            (c.waitReqGetConnTimeout req buf now).state =
              ({ c with activeWaitList :=
                  c.activeWaitList.eraseP (fun w => w.wid == req.wid) }).putActiveLock))
    ∧ (req.hasActiveLock = true → ∀ w rest, c.waitList = w :: rest →
        (c.waitReqGetConnTimeout req buf now).state.waitList = rest)
    ∧ (req.hasActiveLock = true → c.waitList = [] → 0 < c.conf.MaxActive →
        (c.waitReqGetConnTimeout req buf now).state.activeLock = c.activeLock + 1) := by
  cases buf with
  | some conn0 =>
      have hstate : (c.waitReqGetConnTimeout req (some conn0) now).state =
          ((if req.hasActiveLock = true then c.putActiveLock else c).autoPutConn conn0 now).state :=
        rfl
      refine ⟨rfl, ?_, ?_, ?_, ?_⟩
      · intro conn hb
        obtain rfl := Option.some.inj hb
        exact ⟨rfl, hstate⟩
      · intro hnone; cases hnone
      · intro hHL w rest hwl
        rw [hstate, autoPutConn_waitList, hHL, if_pos rfl]
        rw [putActiveLock_of_cons c w rest hwl]
      · intro hHL hnil hma
        rw [hstate, autoPutConn_activeLock, hHL, if_pos rfl]
        rw [putActiveLock_of_nil c hnil hma]
  | none =>
      have hstate : (c.waitReqGetConnTimeout req none now).state =
          (if req.hasActiveLock = true
           then ({ c with activeWaitList :=
                    c.activeWaitList.eraseP (fun w => w.wid == req.wid) }).putActiveLock
           else { c with waitList := c.waitList.eraseP (fun w => w.wid == req.wid) }) := by
        cases hHL : req.hasActiveLock <;>
          simp [ConnectPool.waitReqGetConnTimeout, ConnectPool.waitReqReconcile, hHL]
      refine ⟨rfl, ?_, ?_, ?_, ?_⟩
      · intro conn hb; cases hb
      · intro _
        refine ⟨rfl, ?_, ?_⟩
        · intro hHL; rw [hstate, hHL, if_neg (by decide)]
        · intro hHL; rw [hstate, hHL, if_pos rfl]
      · intro hHL w rest hwl
        rw [hstate, hHL, if_pos rfl]
        rw [putActiveLock_of_cons
          { c with activeWaitList := c.activeWaitList.eraseP (fun w => w.wid == req.wid) }
          w rest hwl]
      · intro hHL hnil hma
        rw [hstate, hHL, if_pos rfl]
        rw [putActiveLock_of_nil
          { c with activeWaitList := c.activeWaitList.eraseP (fun w => w.wid == req.wid) }
          hnil hma]

/-- Witness for C5: a concrete timed-out credit-holding waiter with a handle
in its buffer rescues the handle into auto-put and still reports the
timeout error. -/
theorem C5_timeout_reconciliation_witness :
    (poolC5.waitReqGetConnTimeout reqC5 (some connC5) 3).rescuedPut = some connC5
    ∧ (poolC5.waitReqGetConnTimeout reqC5 (some connC5) 3).err = Err.waitGetConnTimeout :=
  ⟨((C5_timeout_reconciliation poolC5 reqC5 (some connC5) 3).2.1 connC5 rfl).1,
   (C5_timeout_reconciliation poolC5 reqC5 (some connC5) 3).1⟩

theorem addWaitReq_frame (c : ConnectPool) (b : Bool) (req : waitReq) (c2 : ConnectPool)
    (h : c.addWaitReq b = Except.ok (req, c2)) :
    c2.closed = c.closed ∧ c2.connList = c.connList := by
  unfold ConnectPool.addWaitReq at h
  dsimp only at h
  cases b with
  | false =>
      rw [if_neg (by decide)] at h
      by_cases hcond : 0 < c.conf.MaxWaitConnCount ∧ c.conf.MaxWaitConnCount ≤ (c.waitList.length : Int)
      · rw [if_pos hcond] at h
        cases h
      · rw [if_neg hcond] at h
        injection h with hpair
        obtain ⟨rfl, rfl⟩ := Prod.mk.inj hpair
        exact ⟨rfl, rfl⟩
  | true =>
      rw [if_pos rfl] at h
      injection h with hpair
      obtain ⟨rfl, rfl⟩ := Prod.mk.inj hpair
      exact ⟨rfl, rfl⟩

theorem popFrontConnList_nil (conf : Config) (now : Int) :
    popFrontConnList conf now [] = (none, [], []) := rfl

theorem getLoopLocked_open_empty (c : ConnectPool) (now : Int)
    (hc : c.closed = false) (hl : c.connList = []) :
    (c.getLoopLocked now).state.closed = false ∧ (c.getLoopLocked now).state.connList = [] := by
  unfold ConnectPool.getLoopLocked
  rw [if_neg (show ¬(c.closed = true) from by rw [hc]; decide)]
  by_cases h2 : 0 < c.conf.MaxActive ∧ c.activeLock = 0
  · rw [if_pos h2]
    rcases haw : c.addWaitReq false with e | ⟨req, cW⟩
    · exact ⟨hc, hl⟩
    · have hf := addWaitReq_frame c false req cW haw
      exact ⟨hf.1.trans hc, hf.2.trans hl⟩
  · rw [if_neg h2]
    dsimp only
    by_cases hma : 0 < c.conf.MaxActive
    · rw [if_pos hma]
      try dsimp only
      rw [hl, popFrontConnList_nil]
      try dsimp only
      rcases haw : ({ c with activeLock := c.activeLock - 1, connList := ([] : List Conn) }
          : ConnectPool).addWaitReq true with e | ⟨req, cW⟩
      · exact ⟨hc, rfl⟩
      · have hf := addWaitReq_frame _ true req cW haw
        exact ⟨hf.1.trans hc, hf.2⟩
    · rw [if_neg hma]
      try dsimp only
      rw [hl, popFrontConnList_nil]
      try dsimp only
      rcases haw : ({ c with connList := ([] : List Conn) } : ConnectPool).addWaitReq true
          with e | ⟨req, cW⟩
      · exact ⟨hc, rfl⟩
      · have hf := addWaitReq_frame _ true req cW haw
        exact ⟨hf.1.trans hc, hf.2⟩

theorem Put_of_open (c : ConnectPool) (conn : Conn) (now : Int) (hc : c.closed = false) :
    (c.Put conn now).state = { c with activeNum := c.activeNum - 1 } := by
  unfold ConnectPool.Put
  dsimp only
  rw [if_pos (show ({ c with activeNum := c.activeNum - 1 } : ConnectPool).closed = false from hc)]

theorem waitReqReconcile_frame (c : ConnectPool) (req : waitReq) (buf : Option Conn) :
    (c.waitReqReconcile req buf).state.closed = c.closed
    ∧ (c.waitReqReconcile req buf).state.connList = c.connList := by
  cases buf <;> cases hHL : req.hasActiveLock <;>
    simp [ConnectPool.waitReqReconcile, hHL, putActiveLock_closed, putActiveLock_connList]

theorem autoPutConn_of_open (c : ConnectPool) (conn : Conn) (now : Int)
    (hc : c.closed = false) : (c.autoPutConn conn now).state = c := by
  unfold ConnectPool.autoPutConn
  dsimp only
  by_cases h1 : (validConn c.conf now conn).1 = false
  · rw [if_pos h1]
  · rw [if_neg h1, if_pos hc]

theorem waitReqGetConnTimeout_frame (c : ConnectPool) (req : waitReq) (buf : Option Conn)
    (now : Int) (hc : c.closed = false) :
    (c.waitReqGetConnTimeout req buf now).state.closed = c.closed
    ∧ (c.waitReqGetConnTimeout req buf now).state.connList = c.connList := by
  unfold ConnectPool.waitReqGetConnTimeout
  rcases hrc : c.waitReqReconcile req buf with ⟨st, rescued⟩
  have hfr : st.closed = c.closed ∧ st.connList = c.connList := by
    have := waitReqReconcile_frame c req buf
    rw [hrc] at this
    exact this
  cases rescued with
  | none => simpa using hfr
  | some conn0 =>
      dsimp only
      rw [autoPutConn_of_open st conn0 now (hfr.1.trans hc)]
      exact hfr

theorem releaseInvalidConn_open_empty (c : ConnectPool) (now : Int)
    (hl : c.connList = []) :
    (c.releaseInvalidConn now).state.closed = c.closed
    ∧ (c.releaseInvalidConn now).state.connList = [] := by
  unfold ConnectPool.releaseInvalidConn
  split_ifs
  · exact ⟨rfl, hl⟩
  · rw [hl]
    simp [releaseInvalidList]

theorem releaseNeedlessConn_open_empty (c : ConnectPool) (hl : c.connList = []) :
    (c.releaseNeedlessConn).1.closed = c.closed
    ∧ (c.releaseNeedlessConn).1.connList = [] := by
  unfold ConnectPool.releaseNeedlessConn
  rw [hl]
  simp [releaseNeedlessLoop]

theorem step_preserves_open_empty (c c2 : ConnectPool) (hs : Step c c2)
    (hc : c.closed = false) (hl : c.connList = []) :
    c2.closed = false ∧ c2.connList = [] := by
  cases hs with
  | get now => exact getLoopLocked_open_empty c now hc hl
  | put conn now =>
      rw [Put_of_open c conn now hc]
      exact ⟨hc, hl⟩
  | putCredit =>
      rw [putActiveLock_closed, putActiveLock_connList]
      exact ⟨hc, hl⟩
  | reconcile req buf =>
      have := waitReqReconcile_frame c req buf
      exact ⟨this.1.trans hc, this.2.trans hl⟩
  | timeout req buf now =>
      have := waitReqGetConnTimeout_frame c req buf now hc
      exact ⟨this.1.trans hc, this.2.trans hl⟩
  | replenish =>
      rw [replenishLackConn_closed, replenishLackConn_connList]
      exact ⟨hc, hl⟩
  | connTaskDone => exact ⟨hc, hl⟩
  | autoPut conn now =>
      rw [autoPutConn_of_open c conn now hc]
      exact ⟨hc, hl⟩
  | sweep now =>
      have := releaseInvalidConn_open_empty c now hl
      exact ⟨this.1.trans hc, this.2⟩
  | shrink =>
      have := releaseNeedlessConn_open_empty c hl
      exact ⟨this.1.trans hc, this.2⟩

/-- Claim C3: in every pool state reachable from the fresh pool under the
mutator operations (`Get`, `Put`, promotion, timeout removal, replenishment
and maintenance — `Close` is not among them), the idle store and the
credit-holding wait queue are not both non-empty. The proof establishes the
stronger inductive invariant that the pool stays open and, because the
inverted close-test in `Put`/`autoPutConn` (see C1) closes every returned or
created handle while the pool is open, the idle store stays empty. -/
theorem C3_idle_and_waiters_not_both_nonempty (conf : Config) (s : ConnectPool)
    (h : ReachableFrom conf s) : s.connList = [] ∨ s.activeWaitList = [] := by
  have hInv : s.closed = false ∧ s.connList = [] := by
    induction h with
    | refl => exact ⟨rfl, rfl⟩
    | tail hR hstep ih => exact step_preserves_open_empty _ _ hstep ih.1 ih.2
  exact Or.inl hInv.2

/-- Witness for C3: the state reached by one `Get` step on the fresh pool
(which enqueues a credit-holding waiter, so `activeWaitList` is non-empty)
satisfies the invariant. -/
theorem C3_idle_and_waiters_witness :
    ReachableFrom confBase poolC3a
    ∧ poolC3a.activeWaitList ≠ []
    ∧ (poolC3a.connList = [] ∨ poolC3a.activeWaitList = []) :=
  ⟨Relation.ReflTransGen.single (Step.get _ 0), by decide,
   C3_idle_and_waiters_not_both_nonempty confBase poolC3a
     (Relation.ReflTransGen.single (Step.get _ 0))⟩

end Connpool


